import Mathlib

/-!
# opengl-sdl2-example: the shader build pipeline and the display loop of `src/main.c`

The program talks to three outside parties: the C library (files, `stderr`),
SDL2 (window, events) and the OpenGL driver.  Their answers are inputs of the
program, so every function below takes an environment `Env` holding the
answer of each outside call, and threads a `State` that records what the
program did: the calls it made, in order, and the bytes it wrote to `stderr`.

A C `char` is a `Char`, a C string in memory is a `List Char` read up to its
first `'\0'` (`cstr`), an `int` is an `Int`, an `unsigned int` handle is a `Nat`.
-/

namespace Main

/-! ## Constants of the source and of the headers it includes -/

/-- `#define SCREEN_WIDTH 1280`. -/
def SCREEN_WIDTH : Int := 1280

/-- `#define SCREEN_HEIGHT 960`. -/
def SCREEN_HEIGHT : Int := 960

/-- `#define LOG_CAPACITY 1024`. -/
def LOG_CAPACITY : Nat := 1024

/-- `#define SHADER_VERTEX_SOURCE_FILE_PATH`. -/
def SHADER_VERTEX_SOURCE_FILE_PATH : String := "./resources/shaders/shader.vert"

/-- `#define SHADER_FRAGMENT_SOURCE_FILE_PATH`. -/
def SHADER_FRAGMENT_SOURCE_FILE_PATH : String := "./resources/shaders/shader.frag"

/-- `GL_TRUE` of the OpenGL headers. -/
def GL_TRUE : Int := 1

/-- `GL_FRAGMENT_SHADER` of the OpenGL headers (0x8B30). -/
def GL_FRAGMENT_SHADER : Nat := 35632

/-- `GL_VERTEX_SHADER` of the OpenGL headers (0x8B31). -/
def GL_VERTEX_SHADER : Nat := 35633

/-- `SDL_QUIT` of `SDL_events.h` (0x100). -/
def SDL_QUIT : Nat := 256

/-- `SDL_WINDOWEVENT` of `SDL_events.h` (0x200). -/
def SDL_WINDOWEVENT : Nat := 512

/-- `SDL_WINDOWEVENT_SIZE_CHANGED` of `SDL_video.h`. -/
def SDL_WINDOWEVENT_SIZE_CHANGED : Nat := 6

/-- `EXIT_FAILURE` of `stdlib.h`. -/
def EXIT_FAILURE : Int := 1

/-! ## C strings -/

/-- The null character that ends a C string. -/
def NUL : Char := Char.ofNat 0

/-- The text a `char *` denotes: the bytes of the memory it points to, up to
the first null byte.  This is what `%s` prints and what `glShaderSource`
reads when its `length` argument is `NULL`. -/
def cstr (mem : List Char) : List Char :=
  mem.takeWhile (fun c => c != NUL)

/-- Storing `src` at the start of the memory `buf`: the first `src.length`
bytes of `buf` are replaced, the rest of `buf` is kept. -/
def store (src buf : List Char) : List Char :=
  src ++ buf.drop src.length

/-- The conversion of an `unsigned int` to the `int` that `%.*s` expects
(32-bit two's complement). -/
def unsigned_as_int (n : Nat) : Int :=
  if n % 2 ^ 32 < 2 ^ 31 then ((n % 2 ^ 32 : Nat) : Int) else ((n % 2 ^ 32 : Nat) : Int) - 2 ^ 32

/-- What `%.*s` prints for the precision `prec` and the memory `mem`: at most
`prec` bytes, stopping at the first null byte; a negative precision counts as
no precision. -/
def printf_prec_s (prec : Int) (mem : List Char) : List Char :=
  if prec < 0 then cstr mem else cstr (mem.take prec.toNat)

/-! ## The outside world -/

/-- The answers of the C library for one file path. -/
structure FileReply where
  /-- Whether `fopen(path, "rb")` gives a stream. -/
  fopen_ok : Bool
  /-- The return code of `fseek(fp, 0, SEEK_END)`. -/
  seek_end : Int
  /-- The value of `ftell(fp)`. -/
  tell : Int
  /-- The return code of `fseek(fp, 0, SEEK_SET)`. -/
  seek_set : Int
  /-- Whether `calloc` gives a buffer. -/
  calloc_ok : Bool
  /-- The bytes the stream can deliver to `fread` from its start. -/
  stream : List Char
  /-- The text of `strerror(errno)` when a step fails. -/
  strerror : List Char

/-- The answers of the OpenGL driver about one shader stage. -/
structure StageReply where
  /-- The name `glCreateShader` returns. -/
  handle : Nat
  /-- The value `glGetShaderiv(.., GL_COMPILE_STATUS, ..)` stores. -/
  status : Int
  /-- The memory holding the driver's info log, a C string. -/
  log : List Char
  /-- The content of the stack array `log_info` before the driver fills it. -/
  stack : List Char

/-- The answers of the OpenGL driver about the program object. -/
structure ProgramReply where
  /-- The name `glCreateProgram` returns. -/
  handle : Nat
  /-- The value `glGetProgramiv(.., GL_LINK_STATUS, ..)` stores. -/
  status : Int
  /-- The memory holding the driver's info log, a C string. -/
  log : List Char
  /-- The content of the stack array `log_info` before the driver fills it. -/
  stack : List Char

/-- One event delivered by `SDL_PollEvent`: `event.type`, `event.window.event`,
`event.window.data1` and `event.window.data2`. -/
structure SDL_Event where
  type : Nat
  window_event : Nat
  data1 : Int
  data2 : Int
deriving DecidableEq, Repr

/-- Everything the outside world answers during one run of the program. -/
structure Env where
  /-- The C library's answers, by file path. -/
  file : String → FileReply
  /-- The driver's answers about the shader created for a stage kind. -/
  stage : Nat → StageReply
  /-- The driver's answers about the program object. -/
  program : ProgramReply
  /-- The return code of `SDL_Init`. -/
  sdl_init : Int
  /-- The text of `SDL_GetError()`. -/
  sdl_error : List Char
  /-- The pointer `SDL_CreateWindow` returns, `0` for `NULL`. -/
  window : Nat
  /-- The pointer `SDL_GL_CreateContext` returns, `0` for `NULL`. -/
  gl_context : Nat
  /-- The return value of `gladLoadGLLoader`; the loader returns 0 when no
  OpenGL context is current. -/
  glad : Int
  /-- The name `glGenVertexArrays` stores. -/
  vao : Nat
  /-- The name `glGenBuffers` stores. -/
  vbo : Nat
  /-- The events `SDL_PollEvent` delivers, one list per iteration of the
  display loop: the events polled until `SDL_PollEvent` returns 0. -/
  frames : List (List SDL_Event)

/-- The SDL and OpenGL calls the program makes, with the arguments that matter.
The calls that only read an answer of the environment, `SDL_PollEvent` and
`SDL_GetError`, are not recorded, nor are the calls of the C library. -/
inductive Call where
  | SDL_Init
  | SDL_GL_SetAttribute (value : Int)
  | SDL_CreateWindow (w h : Int)
  | SDL_GL_CreateContext (window : Nat)
  | SDL_GL_MakeCurrent (window context : Nat)
  | SDL_GL_SetSwapInterval (interval : Int)
  | gladLoadGLLoader
  | SDL_GetVersion
  | glGetString
  | glViewport (x y width height : Int)
  | glCreateShader (shader_type : Nat)
  | glShaderSource (shader : Nat) (text : List Char)
  | glCompileShader (shader : Nat)
  | glGetShaderiv (shader : Nat)
  | glGetShaderInfoLog (shader : Nat) (capacity : Nat)
  | glCreateProgram
  | glAttachShader (program shader : Nat)
  | glLinkProgram (program : Nat)
  | glGetProgramiv (program : Nat)
  | glGetProgramInfoLog (program : Nat) (capacity : Nat)
  | glDeleteShader (shader : Nat)
  | glUseProgram (program : Nat)
  | glGenVertexArrays
  | glGenBuffers
  | glBindVertexArray (vao : Nat)
  | glBindBuffer (vbo : Nat)
  | glBufferData (data : List Int)
  | glVertexAttribPointer (index size stride : Nat)
  | glEnableVertexAttribArray (index : Nat)
  | glClearColor (r g b a : Int)
  | glClear
  | glDrawArrays (first count : Nat)
  | SDL_GL_SwapWindow (window : Nat)
  | glDeleteVertexArrays (vao : Nat)
  | glDeleteBuffers (vbo : Nat)
  | glDeleteProgram (program : Nat)
  | SDL_GL_DeleteContext (context : Nat)
  | SDL_DestroyWindow (window : Nat)
  | SDL_Quit
deriving DecidableEq, Repr

/-- What the program has done so far, and the OpenGL state its calls set.
A `float` literal of the source is kept as its exact decimal value in tenths
(`0.2f` is `2`, `1.0f` is `10`). -/
structure State where
  /-- The SDL and OpenGL calls made, oldest first. -/
  trace : List Call
  /-- The bytes written to `stderr`. -/
  stderr : List Char
  /-- The viewport rectangle `(x, y, width, height)`, once set. -/
  viewport : Option (Int × Int × Int × Int)
  /-- The clear colour, once set. -/
  clear_color : Option (Int × Int × Int × Int)
  /-- The vertex data stored in the array buffer. -/
  vertex_data : List Int
  /-- The program installed by `glUseProgram`, `0` for none. -/
  current_program : Nat
deriving DecidableEq, Repr

/-- The state when `main` starts. -/
def State.init : State :=
  { trace := [], stderr := [], viewport := none, clear_color := none,
    vertex_data := [], current_program := 0 }

/-- How a function ends. -/
inductive Outcome (α : Type) where
  /-- The function returns `v`. -/
  | ret (v : α)
  /-- The process ends in `abort()`. -/
  | abort
  /-- The events of the environment ran out while the display loop was
  still running. -/
  | running
deriving DecidableEq, Repr

/-- Recording a call. -/
def State.call (st : State) (c : Call) : State :=
  { st with trace := st.trace ++ [c] }

/-- The effect of `fprintf(stderr, ..)` with the formatted text `text`. -/
def State.eprint (st : State) (text : List Char) : State :=
  { st with stderr := st.stderr ++ text }

/-- The call `glViewport(x, y, width, height)`: the driver sets the viewport
rectangle, and rejects a negative width or height (`GL_INVALID_VALUE`)
leaving the viewport as it was. -/
def glViewport (st : State) (x y width height : Int) : State :=
  let st1 := st.call (.glViewport x y width height)
  if width < 0 ∨ height < 0 then st1
  else { st1 with viewport := some (x, y, width, height) }

/-- The call `glClearColor(r, g, b, a)`. -/
def glClearColor (st : State) (r g b a : Int) : State :=
  { st.call (.glClearColor r g b a) with clear_color := some (r, g, b, a) }

/-- The call `glUseProgram(program)`. -/
def glUseProgram (st : State) (program : Nat) : State :=
  { st.call (.glUseProgram program) with current_program := program }

/-- The call `glBufferData(GL_ARRAY_BUFFER, sizeof(data), data, GL_STATIC_DRAW)`. -/
def glBufferData (st : State) (data : List Int) : State :=
  { st.call (.glBufferData data) with vertex_data := data }

/-- What `glGetShaderInfoLog` and `glGetProgramInfoLog` do with a buffer of
`capacity > 0` bytes whose content was `stack`: they copy the driver's log,
cut to `capacity - 1` bytes, followed by a null byte, and report the number
of bytes copied, the null byte not counted.  The result is the reported
length and the content of the buffer. -/
def gl_get_info_log (log stack : List Char) (capacity : Nat) : Nat × List Char :=
  let written := (cstr log).take (capacity - 1)
  (written.length, store (written ++ [NUL]) stack)

/-! ## The functions of `main.c` -/

/-- The function `file_as_cstr`.  The path is a `String`, so `assert(filepath)`
holds.  The result is the content of the buffer returned. -/
def file_as_cstr (env : Env) (st : State) (filepath : String) : State × Outcome (List Char) :=
  let f := env.file filepath
  if !f.fopen_ok then
    (st.eprint ("Could not open file '".toList ++ filepath.toList ++ "': ".toList
      ++ f.strerror ++ "\n".toList), .abort)
  else if f.seek_end ≠ 0 then
    (st.eprint ("Could not find the end of file ".toList ++ filepath.toList ++ ": ".toList
      ++ f.strerror ++ "\n".toList), .abort)
  else
    let v := f.tell
    if v < 0 then
      (st.eprint ("Coult not get current position in file ".toList ++ filepath.toList
        ++ ": ".toList ++ f.strerror ++ "\n".toList), .abort)
    else
      let count := v.toNat
      if f.seek_set ≠ 0 then
        (st.eprint ("Could not find the beginning of file ".toList ++ filepath.toList
          ++ ": ".toList ++ f.strerror ++ "\n".toList), .abort)
      else if !f.calloc_ok then
        (st.eprint ("Could not allocate memory for file ".toList ++ filepath.toList
          ++ ": ".toList ++ f.strerror ++ "\n".toList), .abort)
      else
        let zeroed := List.replicate (count + 1) NUL
        let delivered := f.stream.take count
        let buffer := store delivered zeroed
        let n := delivered.length
        if n ≠ count then
          (st.eprint ("Could not read file ".toList ++ filepath.toList ++ ": ".toList
            ++ f.strerror ++ "\n".toList), .abort)
        else (st, .ret buffer)

/-- The function `gl_shader_type_as_cstr`. -/
def gl_shader_type_as_cstr (shader_type : Nat) : List Char :=
  if shader_type = GL_FRAGMENT_SHADER then "GL_FRAGMENT_SHADER".toList
  else if shader_type = GL_VERTEX_SHADER then "GL_VERTEX_SHADER".toList
  else "UNKNOWN".toList

/-- The info-log text the two failure messages print with `%.*s`: the first
`log_length` bytes of `log_info` as the driver left them. -/
def emitted_log (log stack : List Char) : List Char :=
  let r := gl_get_info_log log stack LOG_CAPACITY
  printf_prec_s (unsigned_as_int r.1) r.2

/-- The function `gl_create_and_compile_shader`. -/
def gl_create_and_compile_shader (env : Env) (st : State) (shader_type : Nat)
    (shader_source_file_path : String) : State × Outcome Nat :=
  match file_as_cstr env st shader_source_file_path with
  | (st1, .abort) => (st1, .abort)
  | (st1, .running) => (st1, .running)
  | (st1, .ret shader_source) =>
    let r := env.stage shader_type
    let shader := r.handle
    let st2 := st1.call (.glCreateShader shader_type)
    let st3 := st2.call (.glShaderSource shader (cstr shader_source))
    let st4 := st3.call (.glCompileShader shader)
    let compiled := r.status
    let st5 := st4.call (.glGetShaderiv shader)
    if compiled ≠ GL_TRUE then
      let st6 := st5.call (.glGetShaderInfoLog shader LOG_CAPACITY)
      let st7 := st6.eprint (gl_shader_type_as_cstr shader_type ++ " failed compiled:\n".toList)
      let st8 := st7.eprint (cstr shader_source ++ ":".toList ++ emitted_log r.log r.stack)
      (st8, .abort)
    else (st5, .ret shader)

/-- The function `gl_create_and_link_program`. -/
def gl_create_and_link_program (env : Env) (st : State)
    (vertex_shader_source_file_path fragment_shader_source_file_path : String) :
    State × Outcome Nat :=
  match gl_create_and_compile_shader env st GL_VERTEX_SHADER vertex_shader_source_file_path with
  | (st1, .abort) => (st1, .abort)
  | (st1, .running) => (st1, .running)
  | (st1, .ret vertex_shader) =>
    match gl_create_and_compile_shader env st1 GL_FRAGMENT_SHADER
        fragment_shader_source_file_path with
    | (st2, .abort) => (st2, .abort)
    | (st2, .running) => (st2, .running)
    | (st2, .ret fragment_shader) =>
      let p := env.program
      let shader_program := p.handle
      let st3 := st2.call .glCreateProgram
      let st4 := st3.call (.glAttachShader shader_program vertex_shader)
      let st5 := st4.call (.glAttachShader shader_program fragment_shader)
      let st6 := st5.call (.glLinkProgram shader_program)
      let linked := p.status
      let st7 := st6.call (.glGetProgramiv shader_program)
      if linked ≠ GL_TRUE then
        let st8 := st7.call (.glGetProgramInfoLog shader_program LOG_CAPACITY)
        let st9 := st8.eprint ("Program failed linkage: ".toList ++ emitted_log p.log p.stack)
        (st9, .abort)
      else
        let st8 := st7.call (.glDeleteShader vertex_shader)
        let st9 := st8.call (.glDeleteShader fragment_shader)
        (st9, .ret shader_program)

/-- The function `get_info`: it reads the versions and prints them to the
standard output, which the state does not record. -/
def get_info (st : State) : State :=
  ((((st.call .SDL_GetVersion).call .glGetString).call .glGetString).call .glGetString).call
    .glGetString

/-- The function `framebuffer_size_callback`. -/
def framebuffer_size_callback (st : State) (_window : Nat) (width height : Int) : State :=
  glViewport st 0 0 width height

/-- The body of the inner loop of `main`: the `switch` on `event.type`.  The
result is the new state and the new value of `quit`. -/
def handle_event (st : State) (quit : Bool) (window : Nat) (event : SDL_Event) : State × Bool :=
  if event.type = SDL_QUIT then (st, true)
  else if event.type = SDL_WINDOWEVENT then
    if event.window_event = SDL_WINDOWEVENT_SIZE_CHANGED then
      (framebuffer_size_callback st window event.data1 event.data2, quit)
    else (st, quit)
  else (st, quit)

/-- The inner loop of `main`, `while(SDL_PollEvent(&event))`, over the events
polled in one iteration of the display loop. -/
def poll_events (st : State) (quit : Bool) (window : Nat) : List SDL_Event → State × Bool
  | [] => (st, quit)
  | event :: rest =>
    let r := handle_event st quit window event
    poll_events r.1 r.2 window rest

/-- The rendering part of one iteration of the display loop. -/
def render (st : State) (window : Nat) : State :=
  (((glClearColor st 2 3 3 10).call .glClear).call (.glDrawArrays 0 6)).call
    (.SDL_GL_SwapWindow window)

/-- The display loop of `main`, `while(!quit)`, over the events of the
environment, one list per iteration.  The result is the state and the value
of `quit` when the loop ends (`quit` is true) or when the events run out
while the loop is still running (`quit` is false). -/
def display_loop (window : Nat) : State → Bool → List (List SDL_Event) → State × Bool
  | st, true, _ => (st, true)
  | st, false, [] => (st, false)
  | st, false, frame :: frames =>
    let r := poll_events st false window frame
    display_loop window (render r.1 window) r.2 frames

/-- The array `vertices` of `main`, in tenths. -/
def vertices : List Int :=
  [-10, -10, 10, -10, 0, 0, -10, 10, 10, 10, 0, 0]

/-- The cleanup at the end of `main`. -/
def cleanup (st : State) (window gl_context shader_program vao vbo : Nat) : State :=
  ((((((st.call (.glDeleteVertexArrays vao)).call (.glDeleteBuffers vbo)).call
    (.glDeleteProgram shader_program)).call (.SDL_GL_DeleteContext gl_context)).call
    (.SDL_DestroyWindow window)).call .SDL_Quit)

/-- The function `main`.  The result `ret c` is the exit status `c`. -/
def main (env : Env) : State × Outcome Int :=
  let st0 := State.init.call .SDL_Init
  if env.sdl_init ≠ 0 then
    (st0.eprint ("SDL_Init error: ".toList ++ env.sdl_error ++ "\n".toList), .abort)
  else
    let st1 := ((st0.call (.SDL_GL_SetAttribute 4)).call (.SDL_GL_SetAttribute 6)).call
      (.SDL_GL_SetAttribute 1)
    let window := env.window
    let st2 := st1.call (.SDL_CreateWindow SCREEN_WIDTH SCREEN_HEIGHT)
    if window = 0 then
      (st2.eprint ("SDL_CreateWindow error: ".toList ++ env.sdl_error ++ "\n".toList), .abort)
    else
      let gl_context := env.gl_context
      let st3 := ((st2.call (.SDL_GL_CreateContext window)).call
        (.SDL_GL_MakeCurrent window gl_context)).call (.SDL_GL_SetSwapInterval 1)
      let st4 := st3.call .gladLoadGLLoader
      if env.glad = 0 then
        (st4.eprint "Failed to initialize OpenGL context\n".toList, .ret EXIT_FAILURE)
      else
        let st5 := get_info st4
        let st6 := glViewport st5 0 0 SCREEN_WIDTH SCREEN_HEIGHT
        match gl_create_and_link_program env st6 SHADER_VERTEX_SOURCE_FILE_PATH
            SHADER_FRAGMENT_SOURCE_FILE_PATH with
        | (st7, .abort) => (st7, .abort)
        | (st7, .running) => (st7, .running)
        | (st7, .ret shader_program) =>
          let st8 := glUseProgram st7 shader_program
          let vao := env.vao
          let vbo := env.vbo
          let st9 := (st8.call .glGenVertexArrays).call .glGenBuffers
          let st10 := st9.call (.glBindVertexArray vao)
          let st11 := st10.call (.glBindBuffer vbo)
          let st12 := glBufferData st11 vertices
          let st13 := (st12.call (.glVertexAttribPointer 0 2 8)).call
            (.glEnableVertexAttribArray 0)
          match display_loop window st13 false env.frames with
          | (st14, false) => (st14, .running)
          | (st14, true) => (cleanup st14 window gl_context shader_program vao vbo, .ret 0)

/-! ## Conditions on the environment -/

/-- The file at a path loads: it opens, both seeks succeed, `ftell` gives a
size, `calloc` gives a buffer and `fread` delivers as many bytes as `ftell`
announced. -/
def FileReply.loads (f : FileReply) : Bool :=
  f.fopen_ok && decide (f.seek_end = 0) && decide (0 ≤ f.tell) && decide (f.seek_set = 0)
    && f.calloc_ok && decide (f.tell.toNat ≤ f.stream.length)

/-- The buffer `file_as_cstr` returns for a file that loads. -/
def FileReply.buffer (f : FileReply) : List Char :=
  store (f.stream.take f.tell.toNat) (List.replicate (f.tell.toNat + 1) NUL)

/-- The calls that create, fill or link a program object. -/
def Call.is_program_call : Call → Bool
  | .glCreateProgram => true
  | .glAttachShader _ _ => true
  | .glLinkProgram _ => true
  | _ => false

/-- The calls of a compile that succeeds. -/
def compile_calls (shader_type shader : Nat) (text : List Char) : List Call :=
  [.glCreateShader shader_type, .glShaderSource shader text, .glCompileShader shader,
    .glGetShaderiv shader]

/-- The text `gl_create_and_compile_shader` prints when the stage fails. -/
def compile_message (shader_type : Nat) (source log : List Char) : List Char :=
  gl_shader_type_as_cstr shader_type ++ " failed compiled:\n".toList ++ source ++ ":".toList ++ log

/-- The calls from `glCreateProgram` to the reading of the link status. -/
def link_calls (program vertex_shader fragment_shader : Nat) : List Call :=
  [.glCreateProgram, .glAttachShader program vertex_shader,
    .glAttachShader program fragment_shader, .glLinkProgram program, .glGetProgramiv program]

/-- Both stages compile: both files load and both compile statuses are
`GL_TRUE`. -/
def Env.compiles (env : Env) (vpath fpath : String) : Bool :=
  (env.file vpath).loads && decide ((env.stage GL_VERTEX_SHADER).status = GL_TRUE)
    && (env.file fpath).loads && decide ((env.stage GL_FRAGMENT_SHADER).status = GL_TRUE)

/-- The program builds: both stages compile and the link status is `GL_TRUE`. -/
def Env.builds (env : Env) (vpath fpath : String) : Bool :=
  env.compiles vpath fpath && decide (env.program.status = GL_TRUE)

/-- The calls of the two compiles when both succeed. -/
def stage_calls (env : Env) (vpath fpath : String) : List Call :=
  compile_calls GL_VERTEX_SHADER (env.stage GL_VERTEX_SHADER).handle
      (cstr (env.file vpath).buffer)
    ++ compile_calls GL_FRAGMENT_SHADER (env.stage GL_FRAGMENT_SHADER).handle
      (cstr (env.file fpath).buffer)

/-- The calls from `glCreateProgram` to the reading of the link status, with
the handles of the environment. -/
def program_calls (env : Env) : List Call :=
  link_calls env.program.handle (env.stage GL_VERTEX_SHADER).handle
    (env.stage GL_FRAGMENT_SHADER).handle

/-- The two calls that release the stage objects. -/
def release_calls (env : Env) : List Call :=
  [.glDeleteShader (env.stage GL_VERTEX_SHADER).handle,
    .glDeleteShader (env.stage GL_FRAGMENT_SHADER).handle]

/-- The state after the vertex stage compiled. -/
def after_vertex (env : Env) (st : State) (vpath : String) : State :=
  { st with
    trace := st.trace ++ compile_calls GL_VERTEX_SHADER (env.stage GL_VERTEX_SHADER).handle
      (cstr (env.file vpath).buffer) }

/-- The state when a stage of kind `ty` fails to compile from the state `st`. -/
def after_bad_stage (env : Env) (st : State) (ty : Nat) (path : String) : State :=
  { st with
    trace := st.trace ++ compile_calls ty (env.stage ty).handle (cstr (env.file path).buffer)
      ++ [.glGetShaderInfoLog (env.stage ty).handle LOG_CAPACITY],
    stderr := st.stderr ++ compile_message ty (cstr (env.file path).buffer)
      (emitted_log (env.stage ty).log (env.stage ty).stack) }

/-- The calls that release a shader or a program object. -/
def Call.is_release : Call → Bool
  | .glDeleteShader _ => true
  | .glDeleteProgram _ => true
  | _ => false

/-- The calls that compile a shader. -/
def Call.is_compile : Call → Bool
  | .glCompileShader _ => true
  | _ => false

/-- The calls an iteration of the display loop can make. -/
def Call.is_frame_call : Call → Bool
  | .glViewport _ _ _ _ => true
  | .glClearColor _ _ _ _ => true
  | .glClear => true
  | .glDrawArrays _ _ => true
  | .SDL_GL_SwapWindow _ => true
  | _ => false

/-- The calls that present a frame. -/
def Call.is_swap : Call → Bool
  | .SDL_GL_SwapWindow _ => true
  | _ => false

/-- The calls that release the vertex array, the vertex buffer or the
program. -/
def Call.is_final_release : Call → Bool
  | .glDeleteVertexArrays _ => true
  | .glDeleteBuffers _ => true
  | .glDeleteProgram _ => true
  | _ => false

/-- The calls of `main` before the display loop, when every step succeeds. -/
def setup_calls (env : Env) : List Call :=
  [.SDL_Init, .SDL_GL_SetAttribute 4, .SDL_GL_SetAttribute 6, .SDL_GL_SetAttribute 1,
    .SDL_CreateWindow SCREEN_WIDTH SCREEN_HEIGHT, .SDL_GL_CreateContext env.window,
    .SDL_GL_MakeCurrent env.window env.gl_context, .SDL_GL_SetSwapInterval 1,
    .gladLoadGLLoader, .SDL_GetVersion, .glGetString, .glGetString, .glGetString,
    .glGetString, .glViewport 0 0 SCREEN_WIDTH SCREEN_HEIGHT]
  ++ stage_calls env SHADER_VERTEX_SOURCE_FILE_PATH SHADER_FRAGMENT_SOURCE_FILE_PATH
  ++ program_calls env ++ release_calls env
  ++ [.glUseProgram env.program.handle, .glGenVertexArrays, .glGenBuffers,
    .glBindVertexArray env.vao, .glBindBuffer env.vbo, .glBufferData vertices,
    .glVertexAttribPointer 0 2 8, .glEnableVertexAttribArray 0]

/-- The state of `main` when the display loop starts, when every step
succeeds. -/
def ready (env : Env) : State :=
  { trace := setup_calls env, stderr := [],
    viewport := some (0, 0, SCREEN_WIDTH, SCREEN_HEIGHT), clear_color := none,
    vertex_data := vertices, current_program := env.program.handle }

/-- The calls of the rendering part of the display loop. -/
def Call.is_render : Call → Bool
  | .glClearColor _ _ _ _ => true
  | .glClear => true
  | .glDrawArrays _ _ => true
  | .SDL_GL_SwapWindow _ => true
  | _ => false

/-! ## Sample environments -/

/-- The answers of the C library for a file of content `b` that loads. -/
def sample_file (b : List Char) : FileReply :=
  { fopen_ok := true, seek_end := 0, tell := b.length, seek_set := 0, calloc_ok := true,
    stream := b, strerror := "No such file or directory".toList }

/-- The driver's answers for a stage that compiles. -/
def sample_stage (handle : Nat) : StageReply :=
  { handle := handle, status := GL_TRUE, log := [], stack := [] }

/-- The driver's answers for a stage that fails with the log `log`. -/
def failing_stage (handle : Nat) (log : List Char) : StageReply :=
  { handle := handle, status := 0, log := log, stack := "stack".toList }

/-- A run where everything succeeds: the window is resized in the first
iteration of the display loop and closed in the second. -/
def sample_env : Env :=
  { file := fun _ => sample_file "void main() {}".toList,
    stage := fun ty => sample_stage (if ty = GL_VERTEX_SHADER then 1 else 2),
    program := { handle := 3, status := GL_TRUE, log := [], stack := [] },
    sdl_init := 0, sdl_error := [], window := 7, gl_context := 8, glad := 1,
    vao := 4, vbo := 5,
    frames := [[⟨SDL_WINDOWEVENT, SDL_WINDOWEVENT_SIZE_CHANGED, 800, 600⟩], [⟨SDL_QUIT, 0, 0, 0⟩]] }

/-- The fragment stage fails to compile, with the log `log`. -/
def bad_fragment_env (log : List Char) : Env :=
  { sample_env with
    stage := fun ty =>
      if ty = GL_VERTEX_SHADER then sample_stage 1 else failing_stage 2 log }

/-- The vertex stage fails to compile, with the log `log`. -/
def bad_vertex_env (log : List Char) : Env :=
  { sample_env with
    stage := fun ty =>
      if ty = GL_VERTEX_SHADER then failing_stage 1 log else sample_stage 2 }

/-- Both stages compile and the link fails, with the log `log`. -/
def bad_link_env (log : List Char) : Env :=
  { sample_env with program := { handle := 3, status := 0, log := log, stack := [] } }

/-- The file holds the three bytes `A`, null, `B`; everything else succeeds. -/
def nul_file_env : Env :=
  { sample_env with file := fun _ => sample_file ['A', NUL, 'B'] }

/-- The creation of the OpenGL context fails: `SDL_GL_CreateContext` returns
`NULL`, no context is current, and `gladLoadGLLoader` finds no OpenGL version
and returns 0. -/
def failed_context_env : Env :=
  { sample_env with gl_context := 0, glad := 0 }

/-! ## Lemmas on C strings -/

theorem cstr_append_nul (l rest : List Char) (h : ∀ c ∈ l, c ≠ NUL) :
    cstr (l ++ NUL :: rest) = l := by
  induction l with
  | nil => simp [cstr, List.takeWhile]
  | cons a t ih =>
    have ha : a ≠ NUL := h a (List.mem_cons_self a t)
    have ht : ∀ c ∈ t, c ≠ NUL := fun c hc => h c (List.mem_cons_of_mem a hc)
    have hb : (a != NUL) = true := bne_iff_ne.mpr ha
    have := ih ht
    simp only [cstr] at this ⊢
    simp only [List.cons_append, List.takeWhile_cons, hb, if_true, this]

theorem cstr_of_no_nul (l : List Char) (h : ∀ c ∈ l, c ≠ NUL) : cstr l = l := by
  induction l with
  | nil => simp [cstr]
  | cons a t ih =>
    have ha : a ≠ NUL := h a (List.mem_cons_self a t)
    have ht : ∀ c ∈ t, c ≠ NUL := fun c hc => h c (List.mem_cons_of_mem a hc)
    have hb : (a != NUL) = true := bne_iff_ne.mpr ha
    have := ih ht
    simp only [cstr] at this ⊢
    simp only [List.cons_append, List.takeWhile_cons, hb, if_true, this]

theorem cstr_no_nul (mem : List Char) : ∀ c ∈ cstr mem, c ≠ NUL := by
  intro c hc
  have := List.mem_takeWhile_imp hc
  simpa using this

theorem gl_get_info_log_take (log stack : List Char) (capacity : Nat) :
    (gl_get_info_log log stack capacity).2.take (gl_get_info_log log stack capacity).1
      = (cstr log).take (capacity - 1) := by
  simp only [gl_get_info_log, store, List.append_assoc]
  rw [List.take_append_of_le_length (le_of_eq rfl)]
  simp

theorem unsigned_as_int_small (n : Nat) (h : n < 2 ^ 31) : unsigned_as_int n = (n : Int) := by
  have h1 : n % 2 ^ 32 = n := Nat.mod_eq_of_lt (by omega)
  unfold unsigned_as_int
  rw [h1, if_pos h]

/-- The log text printed is the driver's log cut to `LOG_CAPACITY - 1` bytes. -/
theorem emitted_log_eq (log stack : List Char) :
    emitted_log log stack = (cstr log).take (LOG_CAPACITY - 1) := by
  have hlen : ((cstr log).take (LOG_CAPACITY - 1)).length < 2 ^ 31 := by
    have : ((cstr log).take (LOG_CAPACITY - 1)).length ≤ LOG_CAPACITY - 1 :=
      List.length_take_le _ _
    simp only [LOG_CAPACITY] at this ⊢
    omega
  have hnn : ∀ c ∈ (cstr log).take (LOG_CAPACITY - 1), c ≠ NUL :=
    fun c hc => cstr_no_nul log c (List.mem_of_mem_take hc)
  simp only [emitted_log, gl_get_info_log, printf_prec_s]
  rw [unsigned_as_int_small _ hlen]
  have hneg : ¬ (((List.take (LOG_CAPACITY - 1) (cstr log)).length : Nat) : Int) < 0 := by
    omega
  rw [if_neg hneg, Int.toNat_ofNat]
  have : (store (List.take (LOG_CAPACITY - 1) (cstr log) ++ [NUL]) stack).take
      (List.take (LOG_CAPACITY - 1) (cstr log)).length
      = List.take (LOG_CAPACITY - 1) (cstr log) := by
    simp only [store, List.append_assoc]
    rw [List.take_append_of_le_length (le_of_eq rfl)]
    simp
  rw [this]
  exact cstr_of_no_nul _ hnn

/-- The log text printed is the first `log_length` bytes of `log_info`. -/
theorem emitted_log_eq_take (log stack : List Char) :
    emitted_log log stack
      = (gl_get_info_log log stack LOG_CAPACITY).2.take
          (gl_get_info_log log stack LOG_CAPACITY).1 := by
  rw [emitted_log_eq, gl_get_info_log_take]

/-! ## What each function does, case by case -/

theorem file_as_cstr_ok (env : Env) (st : State) (path : String)
    (h : (env.file path).loads = true) :
    file_as_cstr env st path = (st, .ret (env.file path).buffer) := by
  simp only [FileReply.loads, Bool.and_eq_true, decide_eq_true_eq] at h
  obtain ⟨⟨⟨⟨⟨h1, h2⟩, h3⟩, h4⟩, h5⟩, h6⟩ := h
  have hlen : (List.take (env.file path).tell.toNat (env.file path).stream).length
      = (env.file path).tell.toNat := by
    rw [List.length_take]; omega
  simp only [file_as_cstr, h1, h2, h4, h5, hlen, FileReply.buffer]
  simp [not_lt.mpr h3]

theorem file_as_cstr_fail (env : Env) (st : State) (path : String)
    (h : (env.file path).loads = false) :
    ∃ msg, file_as_cstr env st path = (st.eprint msg, .abort) := by
  unfold file_as_cstr
  dsimp only
  split_ifs with h1 h2 h3 h4 h5 h6
  · exact ⟨_, rfl⟩
  · exact ⟨_, rfl⟩
  · exact ⟨_, rfl⟩
  · exact ⟨_, rfl⟩
  · exact ⟨_, rfl⟩
  · exact ⟨_, rfl⟩
  · exfalso
    have hlen : (env.file path).tell.toNat ≤ (env.file path).stream.length := by
      have := h6
      simp only [ne_eq, not_not, List.length_take] at this
      omega
    have : (env.file path).loads = true := by
      simp only [FileReply.loads, Bool.and_eq_true, decide_eq_true_eq]
      simp only [Bool.not_eq_true, Bool.not_eq_true', Bool.not_eq_false, ne_eq, not_not,
        not_lt] at h1 h2 h3 h4 h5
      exact ⟨⟨⟨⟨⟨h1, h2⟩, h3⟩, h4⟩, h5⟩, hlen⟩
    rw [this] at h
    exact Bool.noConfusion h

theorem file_as_cstr_returns_iff (env : Env) (st : State) (path : String) :
    (∃ buf, (file_as_cstr env st path).2 = .ret buf) ↔ (env.file path).loads = true := by
  constructor
  · rintro ⟨buf, hbuf⟩
    cases hl : (env.file path).loads with
    | true => rfl
    | false =>
      obtain ⟨msg, hmsg⟩ := file_as_cstr_fail env st path hl
      rw [hmsg] at hbuf
      exact Outcome.noConfusion hbuf
  · intro hl
    exact ⟨_, by rw [file_as_cstr_ok env st path hl]⟩

theorem compile_ok (env : Env) (st : State) (ty : Nat) (path : String)
    (hl : (env.file path).loads = true) (hs : (env.stage ty).status = GL_TRUE) :
    gl_create_and_compile_shader env st ty path
      = ({ st with trace := st.trace
            ++ compile_calls ty (env.stage ty).handle (cstr (env.file path).buffer) },
          .ret (env.stage ty).handle) := by
  simp [gl_create_and_compile_shader, file_as_cstr_ok env st path hl, hs, State.call,
    compile_calls]

theorem compile_bad (env : Env) (st : State) (ty : Nat) (path : String)
    (hl : (env.file path).loads = true) (hs : (env.stage ty).status ≠ GL_TRUE) :
    gl_create_and_compile_shader env st ty path
      = ({ st with
            trace := st.trace
              ++ compile_calls ty (env.stage ty).handle (cstr (env.file path).buffer)
              ++ [.glGetShaderInfoLog (env.stage ty).handle LOG_CAPACITY],
            stderr := st.stderr ++ compile_message ty (cstr (env.file path).buffer)
              (emitted_log (env.stage ty).log (env.stage ty).stack) },
          .abort) := by
  simp [gl_create_and_compile_shader, file_as_cstr_ok env st path hl, hs, State.call,
    State.eprint, compile_calls, compile_message]

theorem compile_noload (env : Env) (st : State) (ty : Nat) (path : String)
    (hl : (env.file path).loads = false) :
    ∃ msg, gl_create_and_compile_shader env st ty path = (st.eprint msg, .abort) := by
  obtain ⟨msg, hmsg⟩ := file_as_cstr_fail env st path hl
  exact ⟨msg, by simp [gl_create_and_compile_shader, hmsg]⟩

theorem compiles_iff (env : Env) (vpath fpath : String) :
    env.compiles vpath fpath = true ↔
      (env.file vpath).loads = true ∧ (env.stage GL_VERTEX_SHADER).status = GL_TRUE
        ∧ (env.file fpath).loads = true ∧ (env.stage GL_FRAGMENT_SHADER).status = GL_TRUE := by
  simp [Env.compiles, and_assoc]

theorem link_ok (env : Env) (st : State) (vpath fpath : String)
    (hc : env.compiles vpath fpath = true) (hp : env.program.status = GL_TRUE) :
    gl_create_and_link_program env st vpath fpath
      = ({ st with trace := st.trace ++ stage_calls env vpath fpath ++ program_calls env
            ++ release_calls env },
          .ret env.program.handle) := by
  obtain ⟨h1, h2, h3, h4⟩ := (compiles_iff env vpath fpath).mp hc
  simp [gl_create_and_link_program, compile_ok, h1, h2, h3, h4, hp, State.call, stage_calls,
    link_calls, program_calls, release_calls]

theorem link_bad (env : Env) (st : State) (vpath fpath : String)
    (hc : env.compiles vpath fpath = true) (hp : env.program.status ≠ GL_TRUE) :
    gl_create_and_link_program env st vpath fpath
      = ({ st with
            trace := st.trace ++ stage_calls env vpath fpath ++ program_calls env
              ++ [.glGetProgramInfoLog env.program.handle LOG_CAPACITY],
            stderr := st.stderr ++ ("Program failed linkage: ".toList
              ++ emitted_log env.program.log env.program.stack) },
          .abort) := by
  obtain ⟨h1, h2, h3, h4⟩ := (compiles_iff env vpath fpath).mp hc
  simp [gl_create_and_link_program, compile_ok, h1, h2, h3, h4, hp, State.call, State.eprint,
    stage_calls, link_calls, program_calls]

theorem link_vertex_noload (env : Env) (st : State) (vpath fpath : String)
    (h1 : (env.file vpath).loads = false) :
    ∃ msg, gl_create_and_link_program env st vpath fpath = (st.eprint msg, .abort) := by
  obtain ⟨msg, hmsg⟩ := compile_noload env st GL_VERTEX_SHADER vpath h1
  exact ⟨msg, by simp only [gl_create_and_link_program, hmsg]⟩

theorem link_vertex_bad (env : Env) (st : State) (vpath fpath : String)
    (h1 : (env.file vpath).loads = true) (h2 : (env.stage GL_VERTEX_SHADER).status ≠ GL_TRUE) :
    gl_create_and_link_program env st vpath fpath
      = (after_bad_stage env st GL_VERTEX_SHADER vpath, .abort) := by
  simp only [gl_create_and_link_program, compile_bad env st _ vpath h1 h2, after_bad_stage]

theorem link_fragment_noload (env : Env) (st : State) (vpath fpath : String)
    (h1 : (env.file vpath).loads = true) (h2 : (env.stage GL_VERTEX_SHADER).status = GL_TRUE)
    (h3 : (env.file fpath).loads = false) :
    ∃ msg, gl_create_and_link_program env st vpath fpath
      = ((after_vertex env st vpath).eprint msg, .abort) := by
  obtain ⟨msg, hmsg⟩ := compile_noload env (after_vertex env st vpath) GL_FRAGMENT_SHADER
    fpath h3
  refine ⟨msg, ?_⟩
  simp only [after_vertex] at hmsg ⊢
  simp only [gl_create_and_link_program, compile_ok env st _ vpath h1 h2, hmsg]

theorem link_fragment_bad (env : Env) (st : State) (vpath fpath : String)
    (h1 : (env.file vpath).loads = true) (h2 : (env.stage GL_VERTEX_SHADER).status = GL_TRUE)
    (h3 : (env.file fpath).loads = true)
    (h4 : (env.stage GL_FRAGMENT_SHADER).status ≠ GL_TRUE) :
    gl_create_and_link_program env st vpath fpath
      = (after_bad_stage env (after_vertex env st vpath) GL_FRAGMENT_SHADER fpath, .abort) := by
  simp only [gl_create_and_link_program, compile_ok env st _ vpath h1 h2,
    compile_bad env _ _ fpath h3 h4, after_bad_stage, after_vertex]

/-- When a stage does not compile, the run aborts, and all it has called are
the calls of the vertex compile, and those of the fragment compile when the
vertex stage compiled. -/
theorem link_no_compile (env : Env) (st : State) (vpath fpath : String)
    (hc : env.compiles vpath fpath = false) :
    (gl_create_and_link_program env st vpath fpath).2 = .abort ∧
    ∃ calls, (gl_create_and_link_program env st vpath fpath).1.trace = st.trace ++ calls ∧
      (calls = [] ∨
       calls = compile_calls GL_VERTEX_SHADER (env.stage GL_VERTEX_SHADER).handle
            (cstr (env.file vpath).buffer)
          ++ [.glGetShaderInfoLog (env.stage GL_VERTEX_SHADER).handle LOG_CAPACITY] ∨
       ((env.stage GL_VERTEX_SHADER).status = GL_TRUE ∧
        (calls = compile_calls GL_VERTEX_SHADER (env.stage GL_VERTEX_SHADER).handle
            (cstr (env.file vpath).buffer) ∨
         calls = stage_calls env vpath fpath
          ++ [.glGetShaderInfoLog (env.stage GL_FRAGMENT_SHADER).handle LOG_CAPACITY]))) := by
  by_cases h1 : (env.file vpath).loads = true
  · by_cases h2 : (env.stage GL_VERTEX_SHADER).status = GL_TRUE
    · by_cases h3 : (env.file fpath).loads = true
      · by_cases h4 : (env.stage GL_FRAGMENT_SHADER).status = GL_TRUE
        · have := (compiles_iff env vpath fpath).mpr ⟨h1, h2, h3, h4⟩
          rw [this] at hc
          exact Bool.noConfusion hc
        · rw [link_fragment_bad env st vpath fpath h1 h2 h3 h4]
          refine ⟨rfl, _, ?_, Or.inr (Or.inr ⟨h2, Or.inr rfl⟩)⟩
          simp [after_bad_stage, after_vertex, stage_calls]
      · have h3f : (env.file fpath).loads = false := by simpa using h3
        obtain ⟨msg, hmsg⟩ := link_fragment_noload env st vpath fpath h1 h2 h3f
        rw [hmsg]
        exact ⟨rfl, _, rfl, Or.inr (Or.inr ⟨h2, Or.inl rfl⟩)⟩
    · rw [link_vertex_bad env st vpath fpath h1 h2]
      refine ⟨rfl, _, ?_, Or.inr (Or.inl rfl)⟩
      simp [after_bad_stage]
  · have h1f : (env.file vpath).loads = false := by simpa using h1
    obtain ⟨msg, hmsg⟩ := link_vertex_noload env st vpath fpath h1f
    rw [hmsg]
    exact ⟨rfl, [], by simp [State.eprint], Or.inl rfl⟩

theorem builds_iff (env : Env) (vpath fpath : String) :
    env.builds vpath fpath = true ↔
      (env.file vpath).loads = true ∧ (env.stage GL_VERTEX_SHADER).status = GL_TRUE
        ∧ (env.file fpath).loads = true ∧ (env.stage GL_FRAGMENT_SHADER).status = GL_TRUE
        ∧ env.program.status = GL_TRUE := by
  simp [Env.builds, Env.compiles, and_assoc]

theorem buffer_of_loads (f : FileReply) (h : f.loads = true) :
    f.buffer = f.stream.take f.tell.toNat ++ [NUL] := by
  simp only [FileReply.loads, Bool.and_eq_true, decide_eq_true_eq] at h
  have hlen : (List.take f.tell.toNat f.stream).length = f.tell.toNat := by
    rw [List.length_take]; omega
  simp [FileReply.buffer, store, hlen]

/-! ## The claims -/

/-- C1: `gl_create_and_link_program` returns a program handle exactly when
both source files load, both stages report the compile status `GL_TRUE` and
the program reports the link status `GL_TRUE`.  In that case it returns the
handle obtained from `glCreateProgram` and writes nothing to `stderr`; in
every other case it aborts and returns nothing.  A file loads exactly when
`file_as_cstr` returns a buffer for its path. -/
theorem link_returns_exactly_when_built (env : Env) (st : State) (vpath fpath : String) :
    (((env.file vpath).loads = true ∧ (env.stage GL_VERTEX_SHADER).status = GL_TRUE
        ∧ (env.file fpath).loads = true ∧ (env.stage GL_FRAGMENT_SHADER).status = GL_TRUE
        ∧ env.program.status = GL_TRUE) →
      (gl_create_and_link_program env st vpath fpath).2 = .ret env.program.handle
        ∧ (gl_create_and_link_program env st vpath fpath).1.stderr = st.stderr) ∧
    (¬ ((env.file vpath).loads = true ∧ (env.stage GL_VERTEX_SHADER).status = GL_TRUE
        ∧ (env.file fpath).loads = true ∧ (env.stage GL_FRAGMENT_SHADER).status = GL_TRUE
        ∧ env.program.status = GL_TRUE) →
      (gl_create_and_link_program env st vpath fpath).2 = .abort) ∧
    (∀ path, (env.file path).loads = true ↔ ∃ buf, (file_as_cstr env st path).2 = .ret buf) := by
  refine ⟨?_, ?_, fun path => (file_as_cstr_returns_iff env st path).symm⟩
  · rintro ⟨h1, h2, h3, h4, h5⟩
    rw [link_ok env st vpath fpath ((compiles_iff env vpath fpath).mpr ⟨h1, h2, h3, h4⟩) h5]
    exact ⟨rfl, rfl⟩
  · intro hn
    by_cases hc : env.compiles vpath fpath = true
    · have hp : env.program.status ≠ GL_TRUE := by
        intro hp
        obtain ⟨h1, h2, h3, h4⟩ := (compiles_iff env vpath fpath).mp hc
        exact hn ⟨h1, h2, h3, h4, hp⟩
      rw [link_bad env st vpath fpath hc hp]
    · have hc : env.compiles vpath fpath = false := by simpa using hc
      exact (link_no_compile env st vpath fpath hc).1

/-- C1 on sample runs: the run where everything succeeds returns the handle 3
with an empty `stderr`, and the run whose link fails aborts. -/
theorem link_returns_exactly_when_built_witness :
    ((gl_create_and_link_program sample_env State.init "v" "f").2 = .ret 3
      ∧ (gl_create_and_link_program sample_env State.init "v" "f").1.stderr = []) ∧
    (gl_create_and_link_program (bad_link_env []) State.init "v" "f").2 = .abort :=
  ⟨(link_returns_exactly_when_built sample_env State.init "v" "f").1 (by decide),
   (link_returns_exactly_when_built (bad_link_env []) State.init "v" "f").2.1 (by decide)⟩

/-- C2: when the vertex stage or the fragment stage reports a compile status
other than `GL_TRUE`, `gl_create_and_link_program` aborts, and none of the
calls it made is `glCreateProgram`, `glAttachShader` or `glLinkProgram`; when
the vertex stage is the one that fails, no fragment shader is created and at
most one compile (the vertex one) is requested. -/
theorem no_link_after_compile_failure (env : Env) (st : State) (vpath fpath : String)
    (h : (env.stage GL_VERTEX_SHADER).status ≠ GL_TRUE
      ∨ (env.stage GL_FRAGMENT_SHADER).status ≠ GL_TRUE) :
    (gl_create_and_link_program env st vpath fpath).2 = .abort ∧
    ∃ calls, (gl_create_and_link_program env st vpath fpath).1.trace = st.trace ++ calls ∧
      (∀ c ∈ calls, c.is_program_call = false) ∧
      ((env.stage GL_VERTEX_SHADER).status ≠ GL_TRUE →
        (∀ c ∈ calls, c ≠ .glCreateShader GL_FRAGMENT_SHADER)
          ∧ calls.countP Call.is_compile ≤ 1) := by
  have hc : env.compiles vpath fpath = false := by
    cases hb : env.compiles vpath fpath with
    | false => rfl
    | true =>
      obtain ⟨_, h2, _, h4⟩ := (compiles_iff env vpath fpath).mp hb
      rcases h with h | h
      · exact absurd h2 h
      · exact absurd h4 h
  obtain ⟨habort, calls, htrace, hcalls⟩ := link_no_compile env st vpath fpath hc
  refine ⟨habort, calls, htrace, ?_, ?_⟩
  · rcases hcalls with rfl | rfl | ⟨_, rfl | rfl⟩ <;>
      simp [compile_calls, stage_calls, Call.is_program_call]
  · intro hv
    rcases hcalls with rfl | rfl | ⟨h2, _⟩
    · simp
    · simp [compile_calls, Call.is_compile, GL_VERTEX_SHADER, GL_FRAGMENT_SHADER]
    · exact absurd h2 hv

/-- C2 on a sample run: the vertex stage fails and the run aborts. -/
theorem no_link_after_compile_failure_witness :
    (gl_create_and_link_program (bad_vertex_env []) State.init "v" "f").2 = .abort :=
  (no_link_after_compile_failure (bad_vertex_env []) State.init "v" "f"
    (Or.inl (by decide))).1

/-- C3: when a stage whose source file loaded reports a compile status other
than `GL_TRUE`, `gl_create_and_compile_shader` aborts after appending to
`stderr` exactly label, `" failed compiled:\n"`, the source text, `":"` and
the first `log_length` bytes of the buffer `log_info` that
`glGetShaderInfoLog` filled.  The label is `"GL_VERTEX_SHADER"` for the vertex
stage and `"GL_FRAGMENT_SHADER"` for the fragment stage, and the source text
is the text of the loaded buffer, which is the whole file when the file has no
null byte. -/
theorem compile_failure_message (env : Env) (st : State) (ty : Nat) (path : String)
    (hl : (env.file path).loads = true) (hs : (env.stage ty).status ≠ GL_TRUE) :
    (gl_create_and_compile_shader env st ty path).2 = .abort ∧
    (gl_create_and_compile_shader env st ty path).1.stderr
      = st.stderr ++ (gl_shader_type_as_cstr ty ++ " failed compiled:\n".toList
          ++ cstr (env.file path).buffer ++ ":".toList
          ++ (gl_get_info_log (env.stage ty).log (env.stage ty).stack LOG_CAPACITY).2.take
              (gl_get_info_log (env.stage ty).log (env.stage ty).stack LOG_CAPACITY).1) ∧
    gl_shader_type_as_cstr GL_VERTEX_SHADER = "GL_VERTEX_SHADER".toList ∧
    gl_shader_type_as_cstr GL_FRAGMENT_SHADER = "GL_FRAGMENT_SHADER".toList ∧
    ((∀ c ∈ (env.file path).stream.take (env.file path).tell.toNat, c ≠ NUL) →
      cstr (env.file path).buffer = (env.file path).stream.take (env.file path).tell.toNat) := by
  rw [compile_bad env st ty path hl hs]
  refine ⟨rfl, ?_, by decide, by decide, ?_⟩
  · simp only [compile_message, emitted_log_eq_take]
  · intro hn
    rw [buffer_of_loads _ hl]
    exact cstr_append_nul _ [] hn

/-- C3 on a sample run: the fragment stage fails with the log `"0:1: error"`. -/
theorem compile_failure_message_witness :
    (gl_create_and_compile_shader (bad_fragment_env "0:1: error".toList) State.init
      GL_FRAGMENT_SHADER "f").1.stderr
      = "GL_FRAGMENT_SHADER failed compiled:\nvoid main() {}:0:1: error".toList := by
  have h := (compile_failure_message (bad_fragment_env "0:1: error".toList) State.init
    GL_FRAGMENT_SHADER "f" (by decide) (by decide)).2.1
  rw [h]
  decide

theorem label_ne_nil (ty : Nat) : ∃ c rest, gl_shader_type_as_cstr ty = c :: rest ∧ c ≠ 'P' := by
  unfold gl_shader_type_as_cstr
  split_ifs
  · exact ⟨'G', "L_FRAGMENT_SHADER".toList, rfl, by decide⟩
  · exact ⟨'G', "L_VERTEX_SHADER".toList, rfl, by decide⟩
  · exact ⟨'U', "NKNOWN".toList, rfl, by decide⟩

/-- C4: when both stages compile and the program reports a link status other
than `GL_TRUE`, `gl_create_and_link_program` aborts after appending to
`stderr` exactly `"Program failed linkage: "` followed by the first
`log_length` bytes of the buffer `log_info` that `glGetProgramInfoLog` filled;
what it wrote does not start with the message of a compile failure, for any
stage kind. -/
theorem link_failure_message (env : Env) (st : State) (vpath fpath : String)
    (hv : (env.file vpath).loads = true ∧ (env.stage GL_VERTEX_SHADER).status = GL_TRUE)
    (hf : (env.file fpath).loads = true ∧ (env.stage GL_FRAGMENT_SHADER).status = GL_TRUE)
    (hp : env.program.status ≠ GL_TRUE) :
    (gl_create_and_link_program env st vpath fpath).2 = .abort ∧
    ∃ written, (gl_create_and_link_program env st vpath fpath).1.stderr = st.stderr ++ written ∧
      written = "Program failed linkage: ".toList
        ++ (gl_get_info_log env.program.log env.program.stack LOG_CAPACITY).2.take
            (gl_get_info_log env.program.log env.program.stack LOG_CAPACITY).1 ∧
      ∀ ty, ¬ (gl_shader_type_as_cstr ty ++ " failed compiled:\n".toList) <+: written := by
  have hc := (compiles_iff env vpath fpath).mpr ⟨hv.1, hv.2, hf.1, hf.2⟩
  rw [link_bad env st vpath fpath hc hp]
  refine ⟨rfl, _, rfl, ?_, ?_⟩
  · rw [emitted_log_eq_take]
  · intro ty hpre
    obtain ⟨c, rest, hlabel, hne⟩ := label_ne_nil ty
    rw [hlabel] at hpre
    obtain ⟨t, ht⟩ := hpre
    have hhead : "Program failed linkage: ".toList = 'P' :: "rogram failed linkage: ".toList :=
      rfl
    rw [hhead] at ht
    simp only [List.cons_append] at ht
    exact hne (List.cons.inj ht).1

/-- C4 on a sample run: the link fails with the log `"error: x"`. -/
theorem link_failure_message_witness :
    (gl_create_and_link_program (bad_link_env "error: x".toList) State.init "v" "f").2
      = .abort :=
  (link_failure_message (bad_link_env "error: x".toList) State.init "v" "f" (by decide)
    (by decide) (by decide)).1

/-- C5, as stated, fails: the vertex stage fails to compile while the driver
holds an empty info log, and the info-log text written to `stderr` is empty. -/
theorem empty_log_counterexample :
    ((bad_vertex_env []).file "v").loads = true ∧
    ((bad_vertex_env []).stage GL_VERTEX_SHADER).status ≠ GL_TRUE ∧
    emitted_log ((bad_vertex_env []).stage GL_VERTEX_SHADER).log
      ((bad_vertex_env []).stage GL_VERTEX_SHADER).stack = [] ∧
    gl_create_and_compile_shader (bad_vertex_env []) State.init GL_VERTEX_SHADER "v"
      = ({ State.init with
            trace := [.glCreateShader GL_VERTEX_SHADER,
              .glShaderSource 1 "void main() {}".toList, .glCompileShader 1, .glGetShaderiv 1,
              .glGetShaderInfoLog 1 1024],
            stderr := "GL_VERTEX_SHADER failed compiled:\nvoid main() {}:".toList },
          .abort) := by
  decide

/-- C5, amended: when a stage whose source file loaded fails to compile, the
info-log text written to `stderr` after the source and the colon is the
driver's info log cut to `LOG_CAPACITY - 1 = 1023` bytes; its length does not
exceed `LOG_CAPACITY = 1024`, and it is empty exactly when the driver's log is
empty. -/
theorem compile_log_bounded (env : Env) (st : State) (ty : Nat) (path : String)
    (hl : (env.file path).loads = true) (hs : (env.stage ty).status ≠ GL_TRUE) :
    ∃ L, (gl_create_and_compile_shader env st ty path).1.stderr
        = st.stderr ++ (gl_shader_type_as_cstr ty ++ " failed compiled:\n".toList
            ++ cstr (env.file path).buffer ++ ":".toList ++ L) ∧
      L = (cstr (env.stage ty).log).take (LOG_CAPACITY - 1) ∧
      L.length ≤ 1023 ∧ L.length ≤ LOG_CAPACITY ∧ LOG_CAPACITY = 1024 ∧
      (L = [] ↔ cstr (env.stage ty).log = []) := by
  rw [compile_bad env st ty path hl hs]
  refine ⟨emitted_log (env.stage ty).log (env.stage ty).stack, ?_, emitted_log_eq _ _, ?_, ?_,
    rfl, ?_⟩
  · simp only [compile_message]
  · rw [emitted_log_eq]
    exact List.length_take_le _ _
  · rw [emitted_log_eq]
    exact le_trans (List.length_take_le _ _) (by decide)
  · rw [emitted_log_eq]
    constructor
    · intro h
      cases hlog : cstr (env.stage ty).log with
      | nil => rfl
      | cons a t =>
        rw [hlog] at h
        simp [LOG_CAPACITY] at h
    · intro h
      rw [h]
      rfl

/-- C5, amended, on a sample run: the log `"0:1: error"` is written whole. -/
theorem compile_log_bounded_witness :
    (gl_create_and_compile_shader (bad_vertex_env "0:1: error".toList) State.init
      GL_VERTEX_SHADER "v").1.stderr
      = "GL_VERTEX_SHADER failed compiled:\nvoid main() {}:0:1: error".toList := by
  obtain ⟨L, h1, h2, _⟩ := compile_log_bounded (bad_vertex_env "0:1: error".toList) State.init
    GL_VERTEX_SHADER "v" (by decide) (by decide)
  rw [h1, h2]
  decide

theorem cstr_append_singleton_nul (b : List Char) : cstr (b ++ [NUL]) = cstr b := by
  induction b with
  | nil => simp [cstr, List.takeWhile]
  | cons a t ih =>
    simp only [cstr] at ih ⊢
    simp only [List.cons_append, List.takeWhile_cons, ih]

theorem compile_trace_start (env : Env) (st : State) (ty : Nat) (path : String)
    (hl : (env.file path).loads = true) :
    (gl_create_and_compile_shader env st ty path).1.trace.take (st.trace.length + 2)
      = st.trace ++ [.glCreateShader ty,
          .glShaderSource (env.stage ty).handle (cstr (env.file path).buffer)] := by
  by_cases hs : (env.stage ty).status = GL_TRUE
  · rw [compile_ok env st ty path hl hs]
    simp [compile_calls, List.take_append_eq_append_take]
  · rw [compile_bad env st ty path hl hs]
    simp [compile_calls, List.take_append_eq_append_take]

/-- C6, as stated, fails: the file holds the three bytes `A`, null, `B`; it is
opened, measured and fully read, and the buffer returned holds the three bytes
and a null terminator, yet the text handed to `glShaderSource` is `A` alone,
not the entire content of the file. -/
theorem nul_byte_counterexample :
    file_as_cstr nul_file_env State.init "v" = (State.init, .ret ['A', NUL, 'B', NUL]) ∧
    gl_create_and_compile_shader nul_file_env State.init GL_VERTEX_SHADER "v"
      = ({ State.init with
            trace := [.glCreateShader GL_VERTEX_SHADER, .glShaderSource 1 ['A'],
              .glCompileShader 1, .glGetShaderiv 1] },
          .ret 1) ∧
    ['A'] ≠ ['A', NUL, 'B'] := by
  decide

/-- C6, amended: for a file that can be opened, measured and fully read, with
contents `b` of `n` bytes (`n = 0` included), `file_as_cstr` returns a buffer
of `n + 1` bytes whose first `n` bytes are `b` and whose last byte is the null
terminator; the text `gl_create_and_compile_shader` hands to the shader
compiler is `b` up to its first null byte, which is the entire content of the
file when `b` has no null byte. -/
theorem file_as_cstr_whole_file (env : Env) (st : State) (ty : Nat) (path : String)
    (b : List Char)
    (hopen : (env.file path).fopen_ok = true) (hend : (env.file path).seek_end = 0)
    (htell : (env.file path).tell = b.length) (hset : (env.file path).seek_set = 0)
    (halloc : (env.file path).calloc_ok = true)
    (hread : (env.file path).stream.take b.length = b) :
    file_as_cstr env st path = (st, .ret (b ++ [NUL])) ∧
    (b ++ [NUL]).length = b.length + 1 ∧
    (b ++ [NUL]).take b.length = b ∧
    (b ++ [NUL]).getLast? = some NUL ∧
    (gl_create_and_compile_shader env st ty path).1.trace.take (st.trace.length + 2)
      = st.trace ++ [.glCreateShader ty, .glShaderSource (env.stage ty).handle (cstr b)] ∧
    ((∀ c ∈ b, c ≠ NUL) → cstr b = b) := by
  have hlen : b.length ≤ (env.file path).stream.length := by
    have := congrArg List.length hread
    rw [List.length_take] at this
    omega
  have hl : (env.file path).loads = true := by
    simp only [FileReply.loads, Bool.and_eq_true, decide_eq_true_eq]
    refine ⟨⟨⟨⟨⟨hopen, hend⟩, ?_⟩, hset⟩, halloc⟩, ?_⟩
    · rw [htell]; exact Int.natCast_nonneg _
    · rw [htell, Int.toNat_ofNat]; exact hlen
  have hbuf : (env.file path).buffer = b ++ [NUL] := by
    rw [buffer_of_loads _ hl, htell, Int.toNat_ofNat, hread]
  refine ⟨?_, by simp, by simp, by simp, ?_, cstr_of_no_nul b⟩
  · rw [file_as_cstr_ok env st path hl, hbuf]
  · rw [compile_trace_start env st ty path hl, hbuf, cstr_append_singleton_nul]

/-- C6, amended, on a sample run: the file `"void main() {}"`. -/
theorem file_as_cstr_whole_file_witness :
    file_as_cstr sample_env State.init "v"
      = (State.init, .ret ("void main() {}".toList ++ [NUL])) :=
  (file_as_cstr_whole_file sample_env State.init GL_VERTEX_SHADER "v" "void main() {}".toList
    (by decide) (by decide) (by decide) (by decide) (by decide) (by decide)).1

/-- C8: on every run of `gl_create_and_link_program` that succeeds, the value
returned is the program handle, and the calls made end with the link, the
reading of the link status, `glDeleteShader` on the vertex shader and
`glDeleteShader` on the fragment shader, in this order; no call before these
releases a shader or deletes a program, so each stage object is released once
and the program object is not deleted. -/
theorem stages_released_after_link (env : Env) (st : State) (vpath fpath : String)
    (hv : (env.file vpath).loads = true ∧ (env.stage GL_VERTEX_SHADER).status = GL_TRUE)
    (hf : (env.file fpath).loads = true ∧ (env.stage GL_FRAGMENT_SHADER).status = GL_TRUE)
    (hp : env.program.status = GL_TRUE) :
    (gl_create_and_link_program env st vpath fpath).2 = .ret env.program.handle ∧
    ∃ before, (gl_create_and_link_program env st vpath fpath).1.trace
        = st.trace ++ before
          ++ [.glLinkProgram env.program.handle, .glGetProgramiv env.program.handle,
              .glDeleteShader (env.stage GL_VERTEX_SHADER).handle,
              .glDeleteShader (env.stage GL_FRAGMENT_SHADER).handle] ∧
      ∀ c ∈ before, c.is_release = false := by
  have hc := (compiles_iff env vpath fpath).mpr ⟨hv.1, hv.2, hf.1, hf.2⟩
  rw [link_ok env st vpath fpath hc hp]
  refine ⟨rfl, stage_calls env vpath fpath
    ++ [.glCreateProgram,
        .glAttachShader env.program.handle (env.stage GL_VERTEX_SHADER).handle,
        .glAttachShader env.program.handle (env.stage GL_FRAGMENT_SHADER).handle], ?_, ?_⟩
  · simp [program_calls, link_calls, release_calls]
  · intro c hcm
    simp only [stage_calls, compile_calls, List.cons_append, List.nil_append, List.mem_cons,
      List.mem_singleton, List.not_mem_nil, or_false] at hcm
    rcases hcm with h | h | h | h | h | h | h | h | h | h | h <;> rw [h] <;> rfl

/-- C8 on the sample run where everything succeeds. -/
theorem stages_released_after_link_witness :
    (gl_create_and_link_program sample_env State.init "v" "f").2 = .ret 3 :=
  (stages_released_after_link sample_env State.init "v" "f" (by decide) (by decide)
    (by decide)).1

/-! ## The display loop -/

/-- C9: handling a size-changed window event whose width `W` and height `H`
are positive calls `glViewport(0, 0, W, H)`, sets the viewport to
`(0, 0, W, H)` and changes nothing else: the clear colour, the vertex data, the
bound program, `stderr` and the quit flag are as before; a window event of any
other kind leaves the whole state, the viewport included, and the quit flag
unchanged. -/
theorem resize_sets_viewport_only (st : State) (quit : Bool) (window : Nat) (event : SDL_Event)
    (htype : event.type = SDL_WINDOWEVENT)
    (hkind : event.window_event = SDL_WINDOWEVENT_SIZE_CHANGED)
    (hW : 0 < event.data1) (hH : 0 < event.data2) :
    handle_event st quit window event
      = ({ st with
            trace := st.trace ++ [.glViewport 0 0 event.data1 event.data2],
            viewport := some (0, 0, event.data1, event.data2) }, quit) ∧
    (handle_event st quit window event).1.viewport = some (0, 0, event.data1, event.data2) ∧
    (handle_event st quit window event).1.clear_color = st.clear_color ∧
    (handle_event st quit window event).1.vertex_data = st.vertex_data ∧
    (handle_event st quit window event).1.current_program = st.current_program ∧
    (handle_event st quit window event).2 = quit ∧
    ∀ other : SDL_Event, other.type = SDL_WINDOWEVENT →
      other.window_event ≠ SDL_WINDOWEVENT_SIZE_CHANGED →
      handle_event st quit window other = (st, quit) := by
  have hne : SDL_WINDOWEVENT ≠ SDL_QUIT := by decide
  have hneg : ¬ (event.data1 < 0 ∨ event.data2 < 0) := by omega
  have h : handle_event st quit window event
      = ({ st with
            trace := st.trace ++ [.glViewport 0 0 event.data1 event.data2],
            viewport := some (0, 0, event.data1, event.data2) }, quit) := by
    simp only [handle_event, htype, hkind, hne, if_false, if_true, framebuffer_size_callback,
      glViewport, hneg, State.call]
  refine ⟨h, ?_, ?_, ?_, ?_, ?_, ?_⟩
  · rw [h]
  · rw [h]
  · rw [h]
  · rw [h]
  · rw [h]
  · intro other ht hk
    simp only [handle_event, ht, hne, hk, if_false, if_true]

/-- C9 on a sample event: a resize to 800 by 600 after the setup. -/
theorem resize_sets_viewport_only_witness :
    (handle_event (ready sample_env) false 7
      ⟨SDL_WINDOWEVENT, SDL_WINDOWEVENT_SIZE_CHANGED, 800, 600⟩).1.viewport
      = some (0, 0, 800, 600) :=
  (resize_sets_viewport_only (ready sample_env) false 7
    ⟨SDL_WINDOWEVENT, SDL_WINDOWEVENT_SIZE_CHANGED, 800, 600⟩ rfl rfl (by decide)
    (by decide)).2.1

theorem handle_event_quit (st : State) (quit : Bool) (window : Nat) (event : SDL_Event) :
    (handle_event st quit window event).2 = (quit || decide (event.type = SDL_QUIT)) := by
  unfold handle_event
  split_ifs with h1 h2 h3 <;> simp [h1]

theorem handle_event_trace (st : State) (quit : Bool) (window : Nat) (event : SDL_Event) :
    ∃ calls, (handle_event st quit window event).1.trace = st.trace ++ calls ∧
      (handle_event st quit window event).1.stderr = st.stderr ∧
      ∀ c ∈ calls, c.is_frame_call = true ∧ c.is_swap = false := by
  unfold handle_event
  split_ifs with h1 h2 h3
  · exact ⟨[], by simp, rfl, by simp⟩
  · refine ⟨[.glViewport 0 0 event.data1 event.data2], ?_, ?_, ?_⟩
    · simp only [framebuffer_size_callback, glViewport, State.call]
      split_ifs <;> rfl
    · simp only [framebuffer_size_callback, glViewport, State.call]
      split_ifs <;> rfl
    · intro c hc
      rw [List.mem_singleton] at hc
      rw [hc]
      exact ⟨rfl, rfl⟩
  · exact ⟨[], by simp, rfl, by simp⟩
  · exact ⟨[], by simp, rfl, by simp⟩

theorem poll_events_quit (window : Nat) (events : List SDL_Event) :
    ∀ (st : State) (quit : Bool), (poll_events st quit window events).2
      = (quit || events.any (fun e => decide (e.type = SDL_QUIT))) := by
  induction events with
  | nil => intro st quit; simp [poll_events]
  | cons e rest ih =>
    intro st quit
    simp only [poll_events, ih, handle_event_quit, List.any_cons, Bool.or_assoc]

theorem poll_events_trace (window : Nat) (events : List SDL_Event) :
    ∀ (st : State) (quit : Bool), ∃ calls,
      (poll_events st quit window events).1.trace = st.trace ++ calls ∧
      (poll_events st quit window events).1.stderr = st.stderr ∧
      ∀ c ∈ calls, c.is_frame_call = true ∧ c.is_swap = false := by
  induction events with
  | nil => intro st quit; exact ⟨[], by simp [poll_events], rfl, by simp⟩
  | cons e rest ih =>
    intro st quit
    obtain ⟨c1, h1, e1, hc1⟩ := handle_event_trace st quit window e
    obtain ⟨c2, h2, e2, hc2⟩ :=
      ih (handle_event st quit window e).1 (handle_event st quit window e).2
    refine ⟨c1 ++ c2, ?_, ?_, ?_⟩
    · simp only [poll_events, h2, h1, List.append_assoc]
    · simp only [poll_events, e2, e1]
    · intro c hc
      rcases List.mem_append.mp hc with h | h
      · exact hc1 c h
      · exact hc2 c h

theorem render_trace (st : State) (window : Nat) :
    (render st window).trace
      = st.trace ++ [.glClearColor 2 3 3 10, .glClear, .glDrawArrays 0 6,
          .SDL_GL_SwapWindow window] := by
  simp [render, glClearColor, State.call]

theorem render_stderr (st : State) (window : Nat) : (render st window).stderr = st.stderr := rfl

theorem display_loop_done (window : Nat) (st : State) (frames : List (List SDL_Event)) :
    display_loop window st true frames = (st, true) := by
  cases frames <;> rfl

/-- One iteration of the display loop adds calls of a frame, with one swap. -/
theorem frame_trace (window : Nat) (st : State) (frame : List SDL_Event) :
    ∃ calls, (render (poll_events st false window frame).1 window).trace = st.trace ++ calls ∧
      (render (poll_events st false window frame).1 window).stderr = st.stderr ∧
      (∀ c ∈ calls, c.is_frame_call = true) ∧ calls.countP Call.is_swap = 1 := by
  obtain ⟨c1, h1, e1, hc1⟩ := poll_events_trace window frame st false
  refine ⟨c1 ++ [.glClearColor 2 3 3 10, .glClear, .glDrawArrays 0 6,
    .SDL_GL_SwapWindow window], ?_, ?_, ?_, ?_⟩
  · rw [render_trace, h1, List.append_assoc]
  · rw [render_stderr, e1]
  · intro c hc
    rcases List.mem_append.mp hc with h | h
    · exact (hc1 c h).1
    · simp only [List.mem_cons, List.mem_singleton, List.not_mem_nil, or_false] at h
      rcases h with h | h | h | h <;> rw [h] <;> rfl
  · rw [List.countP_append]
    have h0 : c1.countP Call.is_swap = 0 := by
      rw [List.countP_eq_zero]
      intro c hc
      simp [(hc1 c hc).2]
    rw [h0]
    rfl

/-- The display loop ends with the first iteration that polls a quit event. -/
theorem display_loop_quit (window : Nat) (before : List (List SDL_Event))
    (frame : List SDL_Event) (after : List (List SDL_Event))
    (hb : ∀ f ∈ before, ∀ e ∈ f, e.type ≠ SDL_QUIT) (hq : ∃ e ∈ frame, e.type = SDL_QUIT) :
    ∀ st : State, ∃ st' calls,
      display_loop window st false (before ++ frame :: after) = (st', true) ∧
      display_loop window st false (before ++ [frame]) = (st', true) ∧
      st'.trace = st.trace ++ calls ∧ st'.stderr = st.stderr ∧
      (∀ c ∈ calls, c.is_frame_call = true) ∧
      calls.countP Call.is_swap = before.length + 1 := by
  induction before with
  | nil =>
    intro st
    obtain ⟨calls, h1, e1, h2, h3⟩ := frame_trace window st frame
    have hquit : (poll_events st false window frame).2 = true := by
      rw [poll_events_quit]
      obtain ⟨e, he, hte⟩ := hq
      simp only [Bool.false_or, List.any_eq_true, decide_eq_true_eq]
      exact ⟨e, he, hte⟩
    refine ⟨render (poll_events st false window frame).1 window, calls, ?_, ?_, h1, e1, h2, ?_⟩
    · simp only [List.nil_append, display_loop, hquit, display_loop_done]
    · simp only [List.nil_append, display_loop, hquit, display_loop_done]
    · simpa using h3
  | cons f rest ih =>
    intro st
    have hb' : ∀ f ∈ rest, ∀ e ∈ f, e.type ≠ SDL_QUIT :=
      fun g hg => hb g (List.mem_cons_of_mem f hg)
    have hnq : (poll_events st false window f).2 = false := by
      rw [poll_events_quit]
      simp only [Bool.false_or, List.any_eq_false, decide_eq_true_eq]
      exact fun e he => hb f (List.mem_cons_self f rest) e he
    obtain ⟨c1, h1, e1, h2, h3⟩ := frame_trace window st f
    obtain ⟨st', c2, g1, g2, g3, g4, g5, g6⟩ :=
      ih hb' (render (poll_events st false window f).1 window)
    refine ⟨st', c1 ++ c2, ?_, ?_, ?_, ?_, ?_, ?_⟩
    · rw [List.cons_append]
      simp only [display_loop, hnq]
      exact g1
    · rw [List.cons_append]
      simp only [display_loop, hnq]
      exact g2
    · rw [g3, h1, List.append_assoc]
    · rw [g4, e1]
    · intro c hc
      rcases List.mem_append.mp hc with h | h
      · exact h2 c h
      · exact g5 c h
    · rw [List.countP_append, h3, g6, List.length_cons]
      omega

theorem frame_call_not_final_release (c : Call) (h : c.is_frame_call = true) :
    c.is_final_release = false := by
  cases c <;> first | rfl | exact Bool.noConfusion h

theorem setup_calls_no_final_release (env : Env) :
    ∀ c ∈ setup_calls env, c.is_final_release = false := by
  have h : (setup_calls env).all (fun c => !c.is_final_release) = true := by
    simp [setup_calls, stage_calls, compile_calls, program_calls, link_calls, release_calls,
      Call.is_final_release]
  intro c hc
  have := List.all_eq_true.mp h c hc
  simpa using this

/-- When every step before the display loop succeeds, `main` enters the loop
in the state `ready env`. -/
theorem main_ready (env : Env) (hinit : env.sdl_init = 0) (hwin : env.window ≠ 0)
    (hglad : env.glad ≠ 0)
    (hb : env.builds SHADER_VERTEX_SOURCE_FILE_PATH SHADER_FRAGMENT_SOURCE_FILE_PATH = true) :
    main env
      = match display_loop env.window (ready env) false env.frames with
        | (st14, false) => (st14, .running)
        | (st14, true) =>
          (cleanup st14 env.window env.gl_context env.program.handle env.vao env.vbo, .ret 0) := by
  obtain ⟨h1, h2, h3, h4, h5⟩ := (builds_iff env _ _).mp hb
  have hc := (compiles_iff env _ _).mpr ⟨h1, h2, h3, h4⟩
  have hsize : ¬ (SCREEN_WIDTH < 0 ∨ SCREEN_HEIGHT < 0) := by decide
  simp [main, hinit, hwin, hglad, link_ok env _ _ _ hc h5, ready, setup_calls, glBufferData,
    glUseProgram, glViewport, get_info, State.call, State.init, hsize]

/-- C10: when every step before the display loop succeeds and some iteration
polls a quit event, the first such iteration being the one after the
iterations `before`, `main` returns 0; the loop presents exactly
`before.length + 1` frames, so it ends with the iteration that polled the quit
event, and what the events of later iterations are does not matter; the calls
of `main` end with `glDeleteVertexArrays`, `glDeleteBuffers`, `glDeleteProgram`
and the three SDL shutdown calls, and no call before them releases the vertex
array, the vertex buffer or the program. -/
theorem quit_ends_loop_and_cleans_up (env : Env) (before : List (List SDL_Event))
    (frame : List SDL_Event) (after : List (List SDL_Event))
    (hinit : env.sdl_init = 0) (hwin : env.window ≠ 0) (hglad : env.glad ≠ 0)
    (hbuild : env.builds SHADER_VERTEX_SOURCE_FILE_PATH SHADER_FRAGMENT_SOURCE_FILE_PATH = true)
    (hframes : env.frames = before ++ frame :: after)
    (hbefore : ∀ f ∈ before, ∀ e ∈ f, e.type ≠ SDL_QUIT)
    (hquit : ∃ e ∈ frame, e.type = SDL_QUIT) :
    (main env).2 = .ret 0 ∧
    (∃ calls, (main env).1.trace
        = setup_calls env ++ calls
          ++ [.glDeleteVertexArrays env.vao, .glDeleteBuffers env.vbo,
              .glDeleteProgram env.program.handle, .SDL_GL_DeleteContext env.gl_context,
              .SDL_DestroyWindow env.window, .SDL_Quit] ∧
      (∀ c ∈ setup_calls env ++ calls, c.is_final_release = false) ∧
      (∀ c ∈ calls, c.is_frame_call = true) ∧
      calls.countP Call.is_swap = before.length + 1) ∧
    main env = main { env with frames := before ++ [frame] } := by
  obtain ⟨st', calls, g1, g2, g3, _, g5, g6⟩ :=
    display_loop_quit env.window before frame after hbefore hquit (ready env)
  have hmain : main env
      = (cleanup st' env.window env.gl_context env.program.handle env.vao env.vbo, .ret 0) := by
    rw [main_ready env hinit hwin hglad hbuild, hframes, g1]
  have hmain' : main { env with frames := before ++ [frame] }
      = (cleanup st' env.window env.gl_context env.program.handle env.vao env.vbo, .ret 0) := by
    rw [main_ready { env with frames := before ++ [frame] } hinit hwin hglad hbuild]
    have hr : ready { env with frames := before ++ [frame] } = ready env := rfl
    dsimp only
    rw [hr, g2]
  refine ⟨by rw [hmain], ⟨calls, ?_, ?_, g5, g6⟩, by rw [hmain, hmain']⟩
  · rw [hmain]
    simp only [cleanup, State.call, g3, ready, List.append_assoc, List.cons_append,
      List.nil_append]
  · intro c hc
    rcases List.mem_append.mp hc with h | h
    · exact setup_calls_no_final_release env c h
    · exact frame_call_not_final_release c (g5 c h)

/-- C10 on the sample run: a resize in the first iteration, the quit event in
the second. -/
theorem quit_ends_loop_and_cleans_up_witness : (main sample_env).2 = .ret 0 :=
  (quit_ends_loop_and_cleans_up sample_env
    [[⟨SDL_WINDOWEVENT, SDL_WINDOWEVENT_SIZE_CHANGED, 800, 600⟩]] [⟨SDL_QUIT, 0, 0, 0⟩] []
    (by decide) (by decide) (by decide) (by decide) rfl (by decide) (by decide)).1

/-! ## Failures before the display loop -/

/-- When the program does not build, `gl_create_and_link_program` aborts and
none of the calls it made renders. -/
theorem link_abort_trace (env : Env) (st : State) (vpath fpath : String)
    (hb : env.builds vpath fpath = false) :
    (gl_create_and_link_program env st vpath fpath).2 = .abort ∧
    ∃ calls, (gl_create_and_link_program env st vpath fpath).1.trace = st.trace ++ calls ∧
      ∀ c ∈ calls, c.is_render = false := by
  by_cases hc : env.compiles vpath fpath = true
  · have hp : env.program.status ≠ GL_TRUE := by
      intro hp
      have : env.builds vpath fpath = true := by simp [Env.builds, hc, hp]
      rw [this] at hb
      exact Bool.noConfusion hb
    rw [link_bad env st vpath fpath hc hp]
    refine ⟨rfl, stage_calls env vpath fpath ++ program_calls env
      ++ [.glGetProgramInfoLog env.program.handle LOG_CAPACITY], by simp, ?_⟩
    intro c hcm
    simp only [stage_calls, compile_calls, program_calls, link_calls, List.cons_append,
      List.nil_append, List.mem_cons, List.mem_singleton, List.not_mem_nil, or_false] at hcm
    rcases hcm with h | h | h | h | h | h | h | h | h | h | h | h | h | h <;> rw [h] <;> rfl
  · have hc : env.compiles vpath fpath = false := by simpa using hc
    obtain ⟨habort, calls, htrace, hcalls⟩ := link_no_compile env st vpath fpath hc
    refine ⟨habort, calls, htrace, ?_⟩
    rcases hcalls with rfl | rfl | ⟨_, rfl | rfl⟩ <;>
      simp [compile_calls, stage_calls, Call.is_render]

theorem link_abort_result (env : Env) (st : State) (vpath fpath : String) (st7 : State)
    (o : Outcome Nat) (hb : env.builds vpath fpath = false)
    (heq : gl_create_and_link_program env st vpath fpath = (st7, o)) :
    o = .abort ∧ ∃ calls, st7.trace = st.trace ++ calls ∧ ∀ c ∈ calls, c.is_render = false := by
  have h := link_abort_trace env st vpath fpath hb
  rw [heq] at h
  exact h

/-- Every failure that `main` checks ends the process before the display
loop: a failure of `SDL_Init`, of the window creation, of a source load, of a
compile or of the link aborts, a failure of `gladLoadGLLoader` returns
`EXIT_FAILURE`, and no rendering call is made. -/
theorem main_stops_on_checked_failure (env : Env)
    (h : env.sdl_init ≠ 0 ∨ env.window = 0 ∨ env.glad = 0
      ∨ env.builds SHADER_VERTEX_SOURCE_FILE_PATH SHADER_FRAGMENT_SOURCE_FILE_PATH = false) :
    ((main env).2 = .abort ∨ (main env).2 = .ret EXIT_FAILURE) ∧ (main env).2 ≠ .ret 0 ∧
    ∀ c ∈ (main env).1.trace, c.is_render = false := by
  have key : ((main env).2 = .abort ∨ (main env).2 = .ret EXIT_FAILURE) ∧
      ∀ c ∈ (main env).1.trace, c.is_render = false := by
    by_cases h1 : env.sdl_init = 0
    · by_cases h2 : env.window = 0
      · simp [main, h1, h2, State.call, State.eprint, State.init, Call.is_render]
      · by_cases h3 : env.glad = 0
        · simp [main, h1, h2, h3, State.call, State.eprint, State.init, Call.is_render]
        · have h4 : env.builds SHADER_VERTEX_SOURCE_FILE_PATH
              SHADER_FRAGMENT_SOURCE_FILE_PATH = false := by
            rcases h with h | h | h | h
            · exact absurd h1 h
            · exact absurd h h2
            · exact absurd h h3
            · exact h
          have hsize : ¬ (SCREEN_WIDTH < 0 ∨ SCREEN_HEIGHT < 0) := by decide
          unfold main
          simp only [h1, h2, h3, ne_eq, not_true_eq_false, if_false]
          split
          · rename_i st7 heq
            obtain ⟨_, calls, ht, hc⟩ := link_abort_result env _ _ _ _ _ h4 heq
            refine ⟨Or.inl rfl, ?_⟩
            intro c hcm
            simp only [ht, glViewport, get_info, State.call, State.init, hsize, if_false,
              List.nil_append, List.cons_append, List.mem_append, List.mem_cons,
              List.mem_singleton, List.not_mem_nil, or_false] at hcm
            rcases hcm with e | e | e | e | e | e | e | e | e | e | e | e | e | e | e | hcm
            all_goals first | exact hc c hcm | (rw [e]; rfl)
          · rename_i st7 heq
            obtain ⟨ho, _⟩ := link_abort_result env _ _ _ _ _ h4 heq
            exact Outcome.noConfusion ho
          · rename_i st7 p heq
            obtain ⟨ho, _⟩ := link_abort_result env _ _ _ _ _ h4 heq
            exact Outcome.noConfusion ho
    · simp [main, h1, State.call, State.eprint, State.init, Call.is_render]
  refine ⟨key.1, ?_, key.2⟩
  rcases key.1 with h | h <;> rw [h] <;> decide

/-- C7: every failure of an initialization step of `main` (`SDL_Init`, the
window creation, the OpenGL context creation, the loading of the OpenGL
functions), of a shader source load or compile, or of the program link ends
the process in `abort()` or with the exit status `EXIT_FAILURE`, which is not
0; `main` does not return 0 and makes no rendering call, so the display loop
is not reached.  `main` does not test the context itself: a failed context
creation leaves no context current, and `gladLoadGLLoader`, which returns 0
when no context is current, is the check that catches it. -/
theorem main_stops_on_every_failure (env : Env)
    (hloader : env.gl_context = 0 → env.glad = 0)
    (h : env.sdl_init ≠ 0 ∨ env.window = 0 ∨ env.gl_context = 0 ∨ env.glad = 0
      ∨ (env.file SHADER_VERTEX_SOURCE_FILE_PATH).loads = false
      ∨ (env.stage GL_VERTEX_SHADER).status ≠ GL_TRUE
      ∨ (env.file SHADER_FRAGMENT_SOURCE_FILE_PATH).loads = false
      ∨ (env.stage GL_FRAGMENT_SHADER).status ≠ GL_TRUE
      ∨ env.program.status ≠ GL_TRUE) :
    ((main env).2 = .abort ∨ (main env).2 = .ret EXIT_FAILURE) ∧ EXIT_FAILURE ≠ 0 ∧
    (main env).2 ≠ .ret 0 ∧ (main env).2 ≠ .running ∧
    ∀ c ∈ (main env).1.trace, c.is_render = false := by
  have hnb : ∀ hne : ¬ ((env.file SHADER_VERTEX_SOURCE_FILE_PATH).loads = true
      ∧ (env.stage GL_VERTEX_SHADER).status = GL_TRUE
      ∧ (env.file SHADER_FRAGMENT_SOURCE_FILE_PATH).loads = true
      ∧ (env.stage GL_FRAGMENT_SHADER).status = GL_TRUE
      ∧ env.program.status = GL_TRUE),
      env.builds SHADER_VERTEX_SOURCE_FILE_PATH SHADER_FRAGMENT_SOURCE_FILE_PATH = false := by
    intro hne
    cases hb : env.builds SHADER_VERTEX_SOURCE_FILE_PATH SHADER_FRAGMENT_SOURCE_FILE_PATH with
    | false => rfl
    | true => exact absurd ((builds_iff env _ _).mp hb) hne
  have hchecked : env.sdl_init ≠ 0 ∨ env.window = 0 ∨ env.glad = 0
      ∨ env.builds SHADER_VERTEX_SOURCE_FILE_PATH SHADER_FRAGMENT_SOURCE_FILE_PATH = false := by
    rcases h with h | h | h | h | h | h | h | h | h
    · exact Or.inl h
    · exact Or.inr (Or.inl h)
    · exact Or.inr (Or.inr (Or.inl (hloader h)))
    · exact Or.inr (Or.inr (Or.inl h))
    · refine Or.inr (Or.inr (Or.inr (hnb ?_)))
      rintro ⟨h1, _, _, _, _⟩
      rw [h1] at h
      exact Bool.noConfusion h
    · exact Or.inr (Or.inr (Or.inr (hnb (fun hall => h hall.2.1))))
    · refine Or.inr (Or.inr (Or.inr (hnb ?_)))
      rintro ⟨_, _, h3, _, _⟩
      rw [h3] at h
      exact Bool.noConfusion h
    · exact Or.inr (Or.inr (Or.inr (hnb (fun hall => h hall.2.2.2.1))))
    · exact Or.inr (Or.inr (Or.inr (hnb (fun hall => h hall.2.2.2.2))))
  obtain ⟨hout, hne, hcalls⟩ := main_stops_on_checked_failure env hchecked
  refine ⟨hout, by decide, hne, ?_, hcalls⟩
  rcases hout with ho | ho <;> rw [ho] <;> decide

/-- C7 on a sample run: the context creation fails, `gladLoadGLLoader` returns
0 and `main` returns `EXIT_FAILURE`. -/
theorem main_stops_on_every_failure_witness :
    (main failed_context_env).2 = .ret EXIT_FAILURE ∧ (main failed_context_env).2 ≠ .ret 0 :=
  ⟨by decide,
   (main_stops_on_every_failure failed_context_env (by decide)
    (Or.inr (Or.inr (Or.inl (by decide))))).2.2.1⟩

end Main
